import Mathlib

set_option maxRecDepth 8000

namespace Agenda

/-! Shallow embedding of `src/agenda_web.py`.

Python strings are modelled as `List Char`; a value raised as a Python
exception is modelled as `Except.error ()` (for functions that can raise)
or as `Option` `none` (for `strptime`, whose `ValueError` is always caught
at the call sites we model).  The record collection is the in-memory list
produced by the record-store collaborator (`read_all`/`write_all`). -/

/-- Python `str.strip()`: drop whitespace from both ends. -/
def pyStrip (s : List Char) : List Char :=
  ((s.dropWhile Char.isWhitespace).reverse.dropWhile Char.isWhitespace).reverse

/-- Python `s.split(sep)` for a one-character separator `sep`. -/
def splitOnChar (sep : Char) : List Char → List (List Char)
  | [] => [[]]
  | c :: rest =>
    match splitOnChar sep rest with
    | [] => [[c]]
    | g :: gs => if c = sep then [] :: g :: gs else (c :: g) :: gs

/-- Python `str.zfill(width)` (including its special-casing of a sign char). -/
def zfill (width : Nat) (s : List Char) : List Char :=
  if width ≤ s.length then s
  else
    match s with
    | c :: rest =>
      if c = '+' ∨ c = '-' then c :: (List.replicate (width - s.length) '0' ++ rest)
      else List.replicate (width - s.length) '0' ++ s
    | [] => List.replicate width '0'

/-- Python `str.isdigit()` for the ASCII strings this app handles. -/
def pyIsDigit (s : List Char) : Bool := !s.isEmpty && s.all Char.isDigit

/-- Python `int(...)` applied to a digit string. -/
def digitsToNat (s : List Char) : Nat := s.foldl (fun a c => 10 * a + (c.toNat - 48)) 0

/-- A Python `datetime` value; seconds/microseconds are always zero in this app. -/
structure DateTime where
  year : Nat
  month : Nat
  day : Nat
  hour : Nat
  minute : Nat
deriving DecidableEq, Repr

/-- The month-length table from `add_months`, indexed by `month - 1`
(the list literal `[31, 29 if leap else 28, 31, 30, ...]`). -/
def daysInMonth (year month : Nat) : Nat :=
  [31, if year % 4 = 0 ∧ (year % 100 ≠ 0 ∨ year % 400 = 0) then 29 else 28,
   31, 30, 31, 30, 31, 31, 30, 31, 30, 31].getD (month - 1) 0

/-- The range checks performed by the `datetime` constructor and by
`datetime.replace` (`MINYEAR = 1`, `MAXYEAR = 9999`). -/
def validDT (y m d hh mi : Nat) : Prop :=
  1 ≤ y ∧ y ≤ 9999 ∧ 1 ≤ m ∧ m ≤ 12 ∧ 1 ≤ d ∧ d ≤ daysInMonth y m ∧ hh ≤ 23 ∧ mi ≤ 59

instance (y m d hh mi : Nat) : Decidable (validDT y m d hh mi) := by
  unfold validDT; infer_instance

/-- Construct a `datetime`, failing (`ValueError`) outside the valid ranges. -/
def mkDT (y m d hh mi : Nat) : Option DateTime :=
  if validDT y m d hh mi then some ⟨y, m, d, hh, mi⟩ else none

/-- `add_months` from the source.  `Except.error ()` models the `ValueError`
raised by `dt.replace(...)` when the target year leaves `1..9999`. -/
def add_months (dt : DateTime) (months : Nat) : Except Unit DateTime :=
  let m0 := dt.month - 1 + months
  let year := dt.year + m0 / 12
  let month := m0 % 12 + 1
  let day := min dt.day (daysInMonth year month)
  if validDT year month day dt.hour dt.minute then .ok ⟨year, month, day, dt.hour, dt.minute⟩
  else .error ()

/-- Successor day in the proleptic Gregorian calendar. -/
def nextDay (dt : DateTime) : DateTime :=
  if dt.day < daysInMonth dt.year dt.month then { dt with day := dt.day + 1 }
  else if dt.month < 12 then { dt with month := dt.month + 1, day := 1 }
  else { dt with year := dt.year + 1, month := 1, day := 1 }

/-- `n`-fold application of `nextDay`. -/
def addDaysIter (dt : DateTime) : Nat → DateTime
  | 0 => dt
  | n + 1 => nextDay (addDaysIter dt n)

/-- `base_dt + timedelta(days=n)`; raises `OverflowError` past year 9999. -/
def addTimedeltaDays (dt : DateTime) (n : Nat) : Except Unit DateTime :=
  let r := addDaysIter dt n
  if r.year ≤ 9999 then .ok r else .error ()

/-- `dt.strftime("%d/%m/%Y")` (glibc: `%d`, `%m` zero-padded, `%Y` unpadded). -/
def strftime_dmy (dt : DateTime) : List Char :=
  zfill 2 (Nat.toDigits 10 dt.day) ++ '/' :: zfill 2 (Nat.toDigits 10 dt.month) ++
    '/' :: Nat.toDigits 10 dt.year

/-- Numeric value of an ASCII digit. -/
def digitVal (c : Char) : Nat := c.toNat - 48

/-- One numeric `strptime` field whose regex is an alternation of two-digit
forms and one-digit forms (`%d`, `%m`, `%H`, `%M`).  Because every such field
is followed by a non-digit literal (or end of input), the regex with
backtracking accepts exactly: two leading digits whose value satisfies
`twoOK`, or a single leading digit (not followed by a digit) satisfying
`oneOK`. -/
def scan2or1 (twoOK oneOK : Nat → Bool) : List Char → Option (Nat × List Char)
  | [] => none
  | [c] => if c.isDigit && oneOK (digitVal c) then some (digitVal c, []) else none
  | c1 :: c2 :: rest =>
    if c1.isDigit then
      if c2.isDigit then
        let v := 10 * digitVal c1 + digitVal c2
        if twoOK v then some (v, rest) else none
      else if oneOK (digitVal c1) then some (digitVal c1, c2 :: rest) else none
    else none

/-- A literal character in a `strptime` format. -/
def scanLit (lit : Char) : List Char → Option (List Char)
  | [] => none
  | c :: rest => if c = lit then some rest else none

/-- `%Y`: exactly four digits. -/
def scanYear4 : List Char → Option (Nat × List Char)
  | c1 :: c2 :: c3 :: c4 :: rest =>
    if c1.isDigit && c2.isDigit && c3.isDigit && c4.isDigit then
      some (digitVal c1 * 1000 + digitVal c2 * 100 + digitVal c3 * 10 + digitVal c4, rest)
    else none
  | _ => none

/-- Whitespace in a `strptime` format matches one or more whitespace chars. -/
def scanWs : List Char → Option (List Char)
  | [] => none
  | c :: rest => if c.isWhitespace then some (rest.dropWhile Char.isWhitespace) else none

/-- `%d` two-digit alternatives `3[01]|[12][0-9]|0[1-9]`. -/
def dayTwo (v : Nat) : Bool := 1 ≤ v && v ≤ 31
/-- `%d` one-digit alternative `[1-9]`. -/
def dayOne (v : Nat) : Bool := 1 ≤ v
/-- `%m` two-digit alternatives `1[0-2]|0[1-9]`. -/
def monthTwo (v : Nat) : Bool := 1 ≤ v && v ≤ 12
/-- `%m` one-digit alternative `[1-9]`. -/
def monthOne (v : Nat) : Bool := 1 ≤ v
/-- `%H` two-digit alternatives `2[0-3]|[0-1][0-9]`. -/
def hourTwo (v : Nat) : Bool := v ≤ 23
/-- `%H`/`%M` one-digit alternative: any digit. -/
def anyOne (_ : Nat) : Bool := true
/-- `%M` two-digit alternative `[0-5][0-9]`. -/
def minuteTwo (v : Nat) : Bool := v ≤ 59

/-- The regex phase of `strptime(s, "%d/%m/%Y %H:%M")`. -/
def scanDmyHm (s : List Char) : Option (Nat × Nat × Nat × Nat × Nat) := do
  let (d, s1) ← scan2or1 dayTwo dayOne s
  let s2 ← scanLit '/' s1
  let (m, s3) ← scan2or1 monthTwo monthOne s2
  let s4 ← scanLit '/' s3
  let (y, s5) ← scanYear4 s4
  let s6 ← scanWs s5
  let (hh, s7) ← scan2or1 hourTwo anyOne s6
  let s8 ← scanLit ':' s7
  let (mi, s9) ← scan2or1 minuteTwo anyOne s8
  if s9 = [] then some (y, m, d, hh, mi) else none

/-- `datetime.strptime(s, "%d/%m/%Y %H:%M")`; `none` models `ValueError`. -/
def strptime_dmy_hm (s : List Char) : Option DateTime :=
  match scanDmyHm s with
  | some (y, m, d, hh, mi) => mkDT y m d hh mi
  | none => none

/-- The regex phase of `strptime(s, "%d/%m/%Y")`. -/
def scanDmy (s : List Char) : Option (Nat × Nat × Nat) := do
  let (d, s1) ← scan2or1 dayTwo dayOne s
  let s2 ← scanLit '/' s1
  let (m, s3) ← scan2or1 monthTwo monthOne s2
  let s4 ← scanLit '/' s3
  let (y, s5) ← scanYear4 s4
  if s5 = [] then some (y, m, d) else none

/-- `parse_dmy_opt` from the source: `strptime(s, "%d/%m/%Y")`, `None` on failure. -/
def parse_dmy_opt (s : List Char) : Option DateTime :=
  match scanDmy s with
  | some (y, m, d) => mkDT y m d 0 0
  | none => none

/-- The regex phase of `strptime(s, "%Y-%m-%d")`. -/
def scanIso (s : List Char) : Option (Nat × Nat × Nat) := do
  let (y, s1) ← scanYear4 s
  let s2 ← scanLit '-' s1
  let (m, s3) ← scan2or1 monthTwo monthOne s2
  let s4 ← scanLit '-' s3
  let (d, s5) ← scan2or1 dayTwo dayOne s4
  if s5 = [] then some (y, m, d) else none

/-- `datetime.strptime(s, "%Y-%m-%d")`; `none` models `ValueError`. -/
def strptime_iso (s : List Char) : Option DateTime :=
  match scanIso s with
  | some (y, m, d) => mkDT y m d 0 0
  | none => none

/-- `fmt_date` from the source.  `Except.error ()` models the uncaught
`ValueError` raised by tuple unpacking when `split` does not yield exactly
three parts. -/
def fmt_date (s0 : List Char) : Except Unit (List Char) :=
  let s := pyStrip s0
  if s = [] then .ok []
  else if s.contains '-' ∧ s.length = 10 then
    match splitOnChar '-' s with
    | [a, m, d] => .ok (d ++ '/' :: m ++ '/' :: a)
    | _ => .error ()
  else if s.contains '/' ∧ s.length = 10 then
    match splitOnChar '/' s with
    | [d, m, a] => .ok (zfill 2 d ++ '/' :: zfill 2 m ++ '/' :: a)
    | _ => .error ()
  else .ok s

/-- `fmt_time` from the source.  `(s.split(":") + ["00"])[:2]` always has
exactly two elements when `':' ∈ s`, so this function never raises and is
modelled as total. -/
def fmt_time (s0 : List Char) : List Char :=
  let s := pyStrip s0
  if s = [] then []
  else if s.contains ':' then
    match splitOnChar ':' s with
    | hh :: mm :: _ => zfill 2 hh ++ ':' :: zfill 2 mm
    | [hh] => zfill 2 hh ++ ':' :: zfill 2 ['0', '0']
    | [] => []
  else if pyIsDigit s ∧ (s.length = 3 ∨ s.length = 4) then
    let s4 := zfill 4 s
    s4.take 2 ++ ':' :: s4.drop 2
  else s

/-- `calcular_proxima` from the source.  `.ok []` is the fail-soft empty
string; `.error ()` is an exception escaping `add_months` / `timedelta`
(the `try` only wraps `strptime`). -/
def calcular_proxima (data_servico hora_servico prazo personalizado_meses : List Char) :
    Except Unit (List Char) :=
  match strptime_dmy_hm (data_servico ++ ' ' :: hora_servico) with
  | none => .ok []
  | some base_dt =>
    if prazo = "15 dias".data then (addTimedeltaDays base_dt 15).map strftime_dmy
    else if prazo = "1 mês".data then (add_months base_dt 1).map strftime_dmy
    else if prazo = "2 meses".data then (add_months base_dt 2).map strftime_dmy
    else if prazo = "3 meses".data then (add_months base_dt 3).map strftime_dmy
    else if prazo = "6 meses".data then (add_months base_dt 6).map strftime_dmy
    else if prazo = "12 meses".data then (add_months base_dt 12).map strftime_dmy
    else if prazo = "personalizado".data ∧ pyIsDigit personalizado_meses = true then
      (add_months base_dt (digitsToNat personalizado_meses)).map strftime_dmy
    else .ok []

/-- Static configuration: `ADMIN_PIN` and the `LOJA_PINS` dict. -/
structure Config where
  adminPin : List Char
  lojaPins : List (List Char × List Char)

/-- The `(mode, loja_autorizada)` pair returned by `check_access`, as a
tagged variant.  `opn` is the `"open"` mode (a Lean keyword). -/
inductive Mode where
  | admin
  | loja (l : List Char)
  | denied
  | opn
deriving DecidableEq, Repr

/-- Python `dict.get` on an association list with unique keys. -/
def dictGet (d : List (List Char × List Char)) (k : List Char) : Option (List Char) :=
  match d with
  | [] => none
  | (k0, v) :: rest => if k = k0 then some v else dictGet rest k

/-- `check_access` from the source. -/
def check_access (cfg : Config) (loja pin : List Char) : Mode :=
  if pin = cfg.adminPin ∧ cfg.adminPin ≠ [] then .admin
  else if loja ≠ [] ∧ pin ≠ [] ∧ dictGet cfg.lojaPins loja = some pin then .loja loja
  else if loja ≠ [] then .denied
  else .opn

/-- One CSV row (`ServiceRecord`); `tecnico` is `funcionario` in the source. -/
structure Row where
  loja : List Char
  empresa : List Char
  tecnico : List Char
  data : List Char
  hora : List Char
  prazo : List Char
  proxima_data : List Char
  observacoes : List Char
deriving DecidableEq, Repr

/-- Lexicographic comparison of `datetime` values (Python `<=`). -/
def dtLeB (a b : DateTime) : Bool :=
  decide (a.year < b.year ∨ (a.year = b.year ∧ (a.month < b.month ∨ (a.month = b.month ∧
    (a.day < b.day ∨ (a.day = b.day ∧ (a.hour < b.hour ∨ (a.hour = b.hour ∧
      a.minute ≤ b.minute))))))))

/-- The accumulating `for` loop of `apply_period_filter`. -/
def period_loop (di df : DateTime) : List Row → List Row
  | [] => []
  | r :: rest =>
    match parse_dmy_opt r.data with
    | some d => if dtLeB di d && dtLeB d df then r :: period_loop di df rest
                else period_loop di df rest
    | none => period_loop di df rest

/-- `apply_period_filter` from the source. -/
def apply_period_filter (rows : List Row) (inicio_iso fim_iso : List Char) : List Row :=
  if inicio_iso = [] ∨ fim_iso = [] then rows
  else
    match strptime_iso inicio_iso, strptime_iso fim_iso with
    | some di, some df => period_loop di df rows
    | _, _ => rows

/-- The submitted form fields (`request.form`); `tecnico` is `funcionario`. -/
structure Form where
  loja : List Char
  empresa : List Char
  tecnico : List Char
  data : List Char
  hora : List Char
  prazo : List Char
  personalizado : List Char
  observacoes : List Char
deriving DecidableEq, Repr

/-- Outcome of a request handler: `abort code`, a redirect after a
successful write, or an uncaught exception (HTTP 500, no write). -/
inductive Resp where
  | abort (code : Nat)
  | redirect
  | crash
deriving DecidableEq, Repr

/-- The POST branch of route `/` (`index`): create a record.  Returns the
response together with the persisted collection (unchanged unless
`write_all` was reached). -/
def index_post (cfg : Config) (fornecedores : List (List Char)) (loja_lock pin : List Char)
    (form : Form) (rows : List Row) : Resp × List Row :=
  match check_access cfg (pyStrip loja_lock) (pyStrip pin) with
  | .opn => (.abort 403, rows)
  | .denied => (.abort 403, rows)
  | mode =>
    let loja_final := match mode with
      | .loja l => l
      | _ => pyStrip form.loja
    let empresa := pyStrip form.empresa
    let tecnico := pyStrip form.tecnico
    match fmt_date form.data with
    | .error _ => (.crash, rows)
    | .ok dataN =>
      let horaN := fmt_time form.hora
      let prazoN := pyStrip form.prazo
      let pers := pyStrip form.personalizado
      let obs := pyStrip form.observacoes
      if empresa ∈ fornecedores then
        match calcular_proxima dataN horaN prazoN pers with
        | .error _ => (.crash, rows)
        | .ok proxima =>
          let r : Row :=
            { loja := loja_final, empresa := empresa, tecnico := tecnico,
              data := dataN, hora := horaN,
              prazo := if prazoN = "personalizado".data then pers ++ " meses".data else prazoN,
              proxima_data := proxima, observacoes := obs }
          (.redirect, rows ++ [r])
      else (.abort 400, rows)

/-- The POST branch of route `/edit/<id>`. -/
def edit_post (cfg : Config) (fornecedores : List (List Char)) (loja_lock pin : List Char)
    (id : Nat) (form : Form) (rows : List Row) : Resp × List Row :=
  match check_access cfg (pyStrip loja_lock) (pyStrip pin) with
  | .opn => (.abort 403, rows)
  | .denied => (.abort 403, rows)
  | mode =>
    match rows[id]? with
    | none => (.abort 404, rows)
    | some reg =>
      let proceed : Resp × List Row :=
        let empresa := pyStrip form.empresa
        if empresa ∈ fornecedores then
          match fmt_date form.data with
          | .error _ => (.crash, rows)
          | .ok dataN =>
            let horaN := fmt_time form.hora
            let prazoN := pyStrip form.prazo
            let pers := pyStrip form.personalizado
            match calcular_proxima dataN horaN prazoN pers with
            | .error _ => (.crash, rows)
            | .ok proxima =>
              let r : Row :=
                { reg with
                  empresa := empresa, tecnico := pyStrip form.tecnico,
                  data := dataN, hora := horaN,
                  observacoes := pyStrip form.observacoes,
                  prazo := if prazoN = "personalizado".data then pers ++ " meses".data else prazoN,
                  proxima_data := proxima }
              (.redirect, rows.set id r)
        else (.abort 400, rows)
      match mode with
      | .loja l => if reg.loja = l then proceed else (.abort 403, rows)
      | _ => proceed

/-- Route `/delete/<id>`. -/
def delete_handler (cfg : Config) (loja_lock pin : List Char) (id : Nat)
    (rows : List Row) : Resp × List Row :=
  match check_access cfg (pyStrip loja_lock) (pyStrip pin) with
  | .opn => (.abort 403, rows)
  | .denied => (.abort 403, rows)
  | mode =>
    match rows[id]? with
    | none => (.abort 404, rows)
    | some reg =>
      match mode with
      | .loja l =>
        if reg.loja = l then (.redirect, rows.eraseIdx id) else (.abort 403, rows)
      | _ => (.redirect, rows.eraseIdx id)

/-- `_default_pins` from the source. -/
def default_pins : List (List Char × List Char) :=
  [("4g Comércio de Alimentos e Bebidas Ltda".data, "1111".data),
   ("Tenro Plaza Niterói Ltda".data, "2222".data),
   ("Gdm Cafés e Bolos Ltda".data, "3333".data),
   ("Tenro Café Américas".data, "4444".data)]

/-- The default configuration (`ADMIN_PIN = "9999"`, default pins). -/
def defaultConfig : Config := ⟨"9999".data, default_pins⟩


lemma isDigit_ne_dash {c : Char} (h : c.isDigit = true) : c ≠ '-' := by
  intro hc; subst hc; simp [Char.isDigit] at h

lemma isDigit_ne_slash {c : Char} (h : c.isDigit = true) : c ≠ '/' := by
  intro hc; subst hc; simp [Char.isDigit] at h

lemma isDigit_ne_colon {c : Char} (h : c.isDigit = true) : c ≠ ':' := by
  intro hc; subst hc; simp [Char.isDigit] at h

lemma isDigit_not_ws {c : Char} (h : c.isDigit = true) : c.isWhitespace = false := by
  simp [Char.isDigit] at h
  simp [Char.isWhitespace]
  refine ⟨⟨⟨?_, ?_⟩, ?_⟩, ?_⟩ <;> (intro hc; subst hc; simp_all)

lemma dropWhile_eq_self_of {p : Char → Bool} {s : List Char}
    (h : ∀ c ∈ s, p c = false) : s.dropWhile p = s := by
  cases s with
  | nil => rfl
  | cons a l => simp [List.dropWhile_cons, h a (by simp)]

lemma pyStrip_eq_self {s : List Char}
    (h : ∀ c ∈ s, c.isWhitespace = false) : pyStrip s = s := by
  have h2 : ∀ c ∈ s.reverse, c.isWhitespace = false :=
    fun c hc => h c (List.mem_reverse.mp hc)
  unfold pyStrip
  rw [dropWhile_eq_self_of h, dropWhile_eq_self_of h2, List.reverse_reverse]

/-- Claim C3: `check_access` implements the documented case analysis,
with the admin credential evaluated first. -/
theorem check_access_case_analysis (cfg : Config) (loja pin : List Char) :
    (pin = cfg.adminPin ∧ cfg.adminPin ≠ [] → check_access cfg loja pin = .admin) ∧
    (¬(pin = cfg.adminPin ∧ cfg.adminPin ≠ []) → loja ≠ [] → pin ≠ [] →
      dictGet cfg.lojaPins loja = some pin → check_access cfg loja pin = .loja loja) ∧
    (¬(pin = cfg.adminPin ∧ cfg.adminPin ≠ []) →
      ¬(loja ≠ [] ∧ pin ≠ [] ∧ dictGet cfg.lojaPins loja = some pin) → loja ≠ [] →
      check_access cfg loja pin = .denied) ∧
    (¬(pin = cfg.adminPin ∧ cfg.adminPin ≠ []) → loja = [] →
      check_access cfg loja pin = .opn) := by
  unfold check_access
  refine ⟨fun h => by rw [if_pos h], fun h1 h2 h3 h4 => ?_, fun h1 h2 h3 => ?_,
    fun h1 h2 => ?_⟩
  · rw [if_neg h1, if_pos ⟨h2, h3, h4⟩]
  · rw [if_neg h1, if_neg h2, if_pos h3]
  · rw [if_neg h1, if_neg (by simp [h2]), if_neg (by simp [h2])]

/-- Witness for C3: the admin secret wins even when the supplied store has a
per-store secret equal to the credential. -/
theorem check_access_case_analysis_inst :
    check_access ⟨"9999".data, [("Store A".data, "9999".data)]⟩ ("Store A".data)
      ("9999".data) = .admin :=
  (check_access_case_analysis _ _ _).1 (by decide)


/-- Claim C5 (amended, counterexample `fmt_date_no_8digit_branch`): for valid
10-character `yyyy-mm-dd` and `dd/mm/yyyy` inputs denoting the same calendar
date, `fmt_date` produces the identical canonical `dd/mm/yyyy` string.  The
8-digit `ddmmyyyy` form is NOT accepted: it falls through unchanged. -/
theorem fmt_date_canonicalizes (d1 d2 m1 m2 y1 y2 y3 y4 : Char)
    (hd1 : d1.isDigit = true) (hd2 : d2.isDigit = true)
    (hm1 : m1.isDigit = true) (hm2 : m2.isDigit = true)
    (hy1 : y1.isDigit = true) (hy2 : y2.isDigit = true)
    (hy3 : y3.isDigit = true) (hy4 : y4.isDigit = true) :
    fmt_date [y1, y2, y3, y4, '-', m1, m2, '-', d1, d2] =
      .ok [d1, d2, '/', m1, m2, '/', y1, y2, y3, y4] ∧
    fmt_date [d1, d2, '/', m1, m2, '/', y1, y2, y3, y4] =
      .ok [d1, d2, '/', m1, m2, '/', y1, y2, y3, y4] := by
  have nws : ∀ c ∈ [y1, y2, y3, y4, '-', m1, m2, '-', d1, d2], c.isWhitespace = false := by
    intro c hc
    simp only [List.mem_cons, List.not_mem_nil, or_false] at hc
    rcases hc with rfl | rfl | rfl | rfl | rfl | rfl | rfl | rfl | rfl | rfl <;>
      first | exact isDigit_not_ws (by assumption) | decide
  have nws2 : ∀ c ∈ [d1, d2, '/', m1, m2, '/', y1, y2, y3, y4], c.isWhitespace = false := by
    intro c hc
    simp only [List.mem_cons, List.not_mem_nil, or_false] at hc
    rcases hc with rfl | rfl | rfl | rfl | rfl | rfl | rfl | rfl | rfl | rfl <;>
      first | exact isDigit_not_ws (by assumption) | decide
  constructor
  · unfold fmt_date
    rw [pyStrip_eq_self nws]
    rw [if_neg (by simp), if_pos ⟨by simp, by simp⟩]
    simp [splitOnChar, isDigit_ne_dash hd1, isDigit_ne_dash hd2, isDigit_ne_dash hm1,
      isDigit_ne_dash hm2, isDigit_ne_dash hy1, isDigit_ne_dash hy2, isDigit_ne_dash hy3,
      isDigit_ne_dash hy4]
  · unfold fmt_date
    rw [pyStrip_eq_self nws2]
    rw [if_neg (by simp), if_neg ?hnd, if_pos ⟨by simp, by simp⟩]
    case hnd =>
      simp [isDigit_ne_dash hd1, isDigit_ne_dash hd2, isDigit_ne_dash hm1,
        isDigit_ne_dash hm2, isDigit_ne_dash hy1, isDigit_ne_dash hy2, isDigit_ne_dash hy3,
        isDigit_ne_dash hy4, (isDigit_ne_dash hd1).symm, (isDigit_ne_dash hd2).symm,
        (isDigit_ne_dash hm1).symm, (isDigit_ne_dash hm2).symm, (isDigit_ne_dash hy1).symm,
        (isDigit_ne_dash hy2).symm, (isDigit_ne_dash hy3).symm, (isDigit_ne_dash hy4).symm]
    simp [splitOnChar, isDigit_ne_slash hd1, isDigit_ne_slash hd2, isDigit_ne_slash hm1,
      isDigit_ne_slash hm2, isDigit_ne_slash hy1, isDigit_ne_slash hy2, isDigit_ne_slash hy3,
      isDigit_ne_slash hy4, zfill]


lemma isDigit_ne_plus {c : Char} (h : c.isDigit = true) : c ≠ '+' := by
  intro hc; subst hc; simp [Char.isDigit] at h

/-- Counterexample to C5 as stated: an 8-digit `ddmmyyyy` input is returned
unchanged (there is no 8-digit branch in `fmt_date`), so the two inputs
denoting 31 January 2024 do not produce the identical canonical string. -/
theorem fmt_date_no_8digit_branch :
    fmt_date ("31012024".data) = .ok ("31012024".data) ∧
    fmt_date ("31/01/2024".data) = .ok ("31/01/2024".data) ∧
    ("31012024".data : List Char) ≠ "31/01/2024".data :=
  ⟨rfl, rfl, by decide⟩

/-- Claim C9 (amended, counterexample `fmt_time_short_digits_unchanged`):
`fmt_time` maps a 3–4 digit string to `HH:MM` (last two digits minutes, rest
zero-padded hours), but a 1–2 digit string falls through UNCHANGED (it is not
read as an hour with minutes `00`). -/
theorem fmt_time_digit_rules (c1 c2 c3 c4 : Char)
    (h1 : c1.isDigit = true) (h2 : c2.isDigit = true)
    (h3 : c3.isDigit = true) (h4 : c4.isDigit = true) :
    fmt_time [c1, c2, c3, c4] = [c1, c2, ':', c3, c4] ∧
    fmt_time [c1, c2, c3] = ['0', c1, ':', c2, c3] ∧
    fmt_time [c1, c2] = [c1, c2] ∧
    fmt_time [c1] = [c1] := by
  have base : ∀ l : List Char, (∀ c ∈ l, c.isDigit = true) → l ≠ [] →
      fmt_time l = (if l.length = 3 ∨ l.length = 4 then
        ((zfill 4 l).take 2 ++ ':' :: (zfill 4 l).drop 2) else l) := by
    intro l hl hne
    have nws : ∀ c ∈ l, c.isWhitespace = false := fun c hc => isDigit_not_ws (hl c hc)
    have ncol : ':' ∉ l := fun hmem => isDigit_ne_colon (hl ':' hmem) rfl
    unfold fmt_time
    rw [pyStrip_eq_self nws, if_neg hne, if_neg (by simp [ncol])]
    by_cases hlen : l.length = 3 ∨ l.length = 4
    · rw [if_pos ⟨by simp [pyIsDigit, List.all_eq_true, List.isEmpty_eq_true,
        List.isEmpty_iff, hne]; exact hl, hlen⟩, if_pos hlen]
    · rw [if_neg (by simp [hlen]), if_neg hlen]

  refine ⟨?_, ?_, ?_, ?_⟩
  · have := base [c1, c2, c3, c4] (by intro c hc; simp at hc; rcases hc with rfl|rfl|rfl|rfl <;> assumption) (by simp)
    rw [this, if_pos (by simp)]
    simp [zfill]
  · have := base [c1, c2, c3] (by intro c hc; simp at hc; rcases hc with rfl|rfl|rfl <;> assumption) (by simp)
    rw [this, if_pos (by simp)]
    simp [zfill, List.replicate, isDigit_ne_dash h1, isDigit_ne_plus h1]
  · have := base [c1, c2] (by intro c hc; simp at hc; rcases hc with rfl|rfl <;> assumption) (by simp)
    rw [this, if_neg (by simp)]
  · have := base [c1] (by intro c hc; simp at hc; subst hc; assumption) (by simp)
    rw [this, if_neg (by simp)]

/-- Counterexample to C9 as stated: the 1-digit string `"9"` is returned
unchanged, not read as hour 9 with minutes `00`. -/
theorem fmt_time_short_digits_unchanged :
    fmt_time ("9".data) = "9".data ∧ ("9".data : List Char) ≠ "09:00".data :=
  ⟨rfl, by decide⟩


/-- Claim C4 (amended, counterexample `fmt_date_raises_on_bad_split`):
`fmt_time` is total; an input that is empty after trimming yields empty
output from both normalizers; a non-empty input matching no accepted
format is returned unchanged AFTER TRIMMING; but `fmt_date` is NOT total:
it raises (models `ValueError` from tuple unpacking) exactly when the
trimmed input is 10 characters long, enters the `'-'` (resp. `'/'`)
branch, and does not split into exactly three parts. -/
theorem normalizers_totality (s : List Char) :
    (pyStrip s = [] → fmt_date s = .ok [] ∧ fmt_time s = []) ∧
    (fmt_date s = .error () ↔
      pyStrip s ≠ [] ∧
        (((pyStrip s).contains '-' = true ∧ (pyStrip s).length = 10 ∧
            (splitOnChar '-' (pyStrip s)).length ≠ 3) ∨
         (¬((pyStrip s).contains '-' = true ∧ (pyStrip s).length = 10) ∧
            (pyStrip s).contains '/' = true ∧ (pyStrip s).length = 10 ∧
            (splitOnChar '/' (pyStrip s)).length ≠ 3))) ∧
    (pyStrip s ≠ [] → ¬((pyStrip s).contains '-' = true ∧ (pyStrip s).length = 10) →
      ¬((pyStrip s).contains '/' = true ∧ (pyStrip s).length = 10) →
      fmt_date s = .ok (pyStrip s)) ∧
    (pyStrip s ≠ [] → ':' ∉ pyStrip s →
      ¬(pyIsDigit (pyStrip s) = true ∧ ((pyStrip s).length = 3 ∨ (pyStrip s).length = 4)) →
      fmt_time s = pyStrip s) := by
  simp only [fmt_date, fmt_time]
  refine ⟨fun h0 => ?_, ?_, fun h0 hc1 hc2 => ?_, fun h0 hcol hdig => ?_⟩
  · rw [if_pos h0, if_pos h0]; exact ⟨rfl, rfl⟩
  · by_cases h0 : pyStrip s = []
    · rw [if_pos h0]
      simp [h0]
    · rw [if_neg h0]
      by_cases hc1 : (pyStrip s).contains '-' = true ∧ (pyStrip s).length = 10
      · rw [if_pos hc1]
        have hmem : '-' ∈ pyStrip s := by simpa using hc1.1
        rcases hsp : splitOnChar '-' (pyStrip s) with _ | ⟨a, _ | ⟨b, _ | ⟨c, _ | ⟨d, rest⟩⟩⟩⟩ <;>
          simp [hsp, h0, hmem, hc1.2]
      · rw [if_neg hc1]
        by_cases hc2 : (pyStrip s).contains '/' = true ∧ (pyStrip s).length = 10
        · rw [if_pos hc2]
          have hmem2 : '/' ∈ pyStrip s := by simpa using hc2.1
          have hnmem : '-' ∉ pyStrip s := fun hm => hc1 ⟨by simpa using hm, hc2.2⟩
          rcases hsp : splitOnChar '/' (pyStrip s) with _ | ⟨a, _ | ⟨b, _ | ⟨c, _ | ⟨d, rest⟩⟩⟩⟩ <;>
            simp [hsp, h0, hmem2, hnmem, hc2.2]
        · rw [if_neg hc2]
          constructor
          · intro h; simp at h
          · rintro ⟨hne, hd | hd⟩
            · exact absurd ⟨hd.1, hd.2.1⟩ hc1
            · exact absurd ⟨hd.2.1, hd.2.2.1⟩ hc2
  · rw [if_neg h0, if_neg hc1, if_neg hc2]
  · rw [if_neg h0, if_neg (by simpa using hcol), if_neg hdig]

/-- Counterexample to C4 as stated: a 10-character input containing one `'-'`
splits into two parts, and the tuple unpacking in `fmt_date` raises
`ValueError` instead of returning the input unchanged. -/
theorem fmt_date_raises_on_bad_split :
    fmt_date ("a-bcdefghi".data) = .error () := rfl

/-- Witness for C4 (amended): a non-matching input is passed through after
trimming, and an input that is empty after trimming maps to empty. -/
theorem normalizers_totality_inst :
    fmt_date (" abc ".data) = .ok ("abc".data) ∧ fmt_time ("  ".data) = [] := by
  constructor
  · exact (normalizers_totality (" abc ".data)).2.2.1 (by decide) (by decide) (by decide)
  · exact ((normalizers_totality ("  ".data)).1 (by decide)).2


lemma period_loop_eq_filter (di df : DateTime) (rows : List Row) :
    period_loop di df rows = rows.filter (fun r =>
      match parse_dmy_opt r.data with
      | some d => dtLeB di d && dtLeB d df
      | none => false) := by
  induction rows with
  | nil => rfl
  | cons r rest ih =>
    simp only [period_loop, List.filter]
    cases hp : parse_dmy_opt r.data with
    | none => simpa [hp] using ih
    | some d =>
      by_cases hle : dtLeB di d && dtLeB d df
      · simpa [hp, hle] using ih
      · simp only [hp, hle]
        simpa [hp, hle] using ih

/-- Claim C8: `apply_period_filter` returns the rows unchanged when either
bound is absent (empty) or fails to parse as `yyyy-mm-dd`; otherwise it
returns exactly the subsequence, in input order, of rows whose `data`
field parses as `dd/mm/yyyy` and lies within the inclusive range
(rows with unparseable dates are dropped). -/
theorem apply_period_filter_spec (rows : List Row) (inicio_iso fim_iso : List Char) :
    ((inicio_iso = [] ∨ fim_iso = [] ∨ strptime_iso inicio_iso = none ∨
        strptime_iso fim_iso = none) →
      apply_period_filter rows inicio_iso fim_iso = rows) ∧
    (∀ di df, strptime_iso inicio_iso = some di → strptime_iso fim_iso = some df →
      apply_period_filter rows inicio_iso fim_iso = rows.filter (fun r =>
        match parse_dmy_opt r.data with
        | some d => dtLeB di d && dtLeB d df
        | none => false)) := by
  constructor
  · intro h
    unfold apply_period_filter
    by_cases he : inicio_iso = [] ∨ fim_iso = []
    · rw [if_pos he]
    · rw [if_neg he]
      push_neg at he
      rcases h with h | h | h | h
      · exact absurd h he.1
      · exact absurd h he.2
      · rw [h]
      · rw [h]
        cases strptime_iso inicio_iso <;> rfl
  · intro di df hdi hdf
    unfold apply_period_filter
    have hi : inicio_iso ≠ [] := fun he => by rw [he] at hdi; cases hdi
    have hf : fim_iso ≠ [] := fun he => by rw [he] at hdf; cases hdf
    rw [if_neg (by simp [hi, hf]), hdi, hdf]
    exact period_loop_eq_filter di df rows


/-- Claim C2: for a caller resolved to `loja s` (StoreScoped), a successful
create appends a record whose `loja` field is `s` regardless of the
submitted value (and any unsuccessful create leaves the collection
unchanged); an edit or delete that targets an existing record whose `loja`
differs from `s` aborts with 403 (`AccessDenied`) and leaves the
collection exactly unchanged. -/
theorem tenant_write_isolation (cfg : Config) (forn : List (List Char))
    (ll pin s : List Char) (form : Form) (rows : List Row) (id : Nat)
    (hmode : check_access cfg (pyStrip ll) (pyStrip pin) = .loja s) :
    ((index_post cfg forn ll pin form rows).2 = rows ∧
       (index_post cfg forn ll pin form rows).1 ≠ .redirect ∨
     ∃ r, index_post cfg forn ll pin form rows = (.redirect, rows ++ [r]) ∧ r.loja = s) ∧
    (∀ reg, rows[id]? = some reg → reg.loja ≠ s →
      edit_post cfg forn ll pin id form rows = (.abort 403, rows)) ∧
    (∀ reg, rows[id]? = some reg → reg.loja ≠ s →
      delete_handler cfg ll pin id rows = (.abort 403, rows)) := by
  refine ⟨?_, fun reg hreg hne => ?_, fun reg hreg hne => ?_⟩
  · cases hfd : fmt_date form.data with
    | error e => left; simp [index_post, hmode, hfd]
    | ok dataN =>
      by_cases hemp : pyStrip form.empresa ∈ forn
      · cases hcal : calcular_proxima dataN (fmt_time form.hora) (pyStrip form.prazo)
          (pyStrip form.personalizado) with
        | error e => left; simp [index_post, hmode, hfd, hemp, hcal]
        | ok prox =>
          right
          refine ⟨?r, ?he, ?hl⟩
          case r => exact
            { loja := s, empresa := pyStrip form.empresa,
              tecnico := pyStrip form.tecnico, data := dataN, hora := fmt_time form.hora,
              prazo := if pyStrip form.prazo = "personalizado".data then
                  pyStrip form.personalizado ++ " meses".data else pyStrip form.prazo,
              proxima_data := prox, observacoes := pyStrip form.observacoes }
          case he => simp [index_post, hmode, hfd, hemp, hcal]
          case hl => rfl
      · left; simp [index_post, hmode, hfd, hemp]
  · simp [edit_post, hmode, hreg, hne]
  · simp [delete_handler, hmode, hreg, hne]

/-- Witness for C2: a caller scoped to "Gdm Cafés e Bolos Ltda" editing a
record owned by "Tenro Café Américas" is rejected with 403 and the
collection is unchanged. -/
theorem tenant_write_isolation_inst :
    edit_post defaultConfig [] ("Gdm Cafés e Bolos Ltda".data) ("3333".data) 0
      ⟨[], [], [], [], [], [], [], []⟩
      [⟨"Tenro Café Américas".data, [], [], [], [], [], [], []⟩] =
      (.abort 403, [⟨"Tenro Café Américas".data, [], [], [], [], [], [], []⟩]) :=
  (tenant_write_isolation defaultConfig [] ("Gdm Cafés e Bolos Ltda".data) ("3333".data)
      ("Gdm Cafés e Bolos Ltda".data) ⟨[], [], [], [], [], [], [], []⟩
      [⟨"Tenro Café Américas".data, [], [], [], [], [], [], []⟩] 0
      (by decide)).2.1 _ rfl (by decide)

/-- Claim C10: on both create and edit the supplier-catalog membership check
blocks the write for every access mode — the collection is never modified
when the submitted supplier is not in the catalog, and in particular an
Admin caller is rejected with 400 just like a scoped caller. -/
theorem supplier_catalog_enforced (cfg : Config) (forn : List (List Char))
    (ll pin : List Char) (form : Form) (rows : List Row) (id : Nat)
    (hemp : pyStrip form.empresa ∉ forn) :
    ((index_post cfg forn ll pin form rows).2 = rows ∧
      (index_post cfg forn ll pin form rows).1 ≠ .redirect) ∧
    ((edit_post cfg forn ll pin id form rows).2 = rows ∧
      (edit_post cfg forn ll pin id form rows).1 ≠ .redirect) ∧
    (check_access cfg (pyStrip ll) (pyStrip pin) = .admin →
      (∀ d, fmt_date form.data = .ok d →
        index_post cfg forn ll pin form rows = (.abort 400, rows)) ∧
      (∀ reg, rows[id]? = some reg →
        edit_post cfg forn ll pin id form rows = (.abort 400, rows))) := by
  cases hm : check_access cfg (pyStrip ll) (pyStrip pin) with
  | opn => exact ⟨by simp [index_post, hm], by simp [edit_post, hm], by simp⟩
  | denied => exact ⟨by simp [index_post, hm], by simp [edit_post, hm], by simp⟩
  | admin =>
    refine ⟨?_, ?_, fun _ => ⟨fun d hfd => ?_, fun reg hid => ?_⟩⟩
    · cases hfd : fmt_date form.data <;> simp [index_post, hm, hfd, hemp]
    · cases hid : rows[id]? with
      | none => simp [edit_post, hm, hid]
      | some reg => simp [edit_post, hm, hid, hemp]
    · simp [index_post, hm, hfd, hemp]
    · simp [edit_post, hm, hid, hemp]
  | loja l =>
    refine ⟨?_, ?_, fun hadm => ?_⟩
    · cases hfd : fmt_date form.data <;> simp [index_post, hm, hfd, hemp]
    · cases hid : rows[id]? with
      | none => simp [edit_post, hm, hid]
      | some reg =>
        by_cases hlo : reg.loja = l
        · simp [edit_post, hm, hid, hemp, hlo]
        · simp [edit_post, hm, hid, hlo]
    · exact Mode.noConfusion hadm

/-- Witness for C10: an Admin caller submitting a supplier absent from the
catalog is rejected with 400 and no record is created. -/
theorem supplier_catalog_enforced_inst :
    index_post defaultConfig [] [] ("9999".data) ⟨[], "Acme".data, [], [], [], [], [], []⟩ [] =
      (.abort 400, []) :=
  ((supplier_catalog_enforced defaultConfig [] [] ("9999".data)
      ⟨[], "Acme".data, [], [], [], [], [], []⟩ [] 0 (by decide)).2.2
    (by decide)).1 [] rfl


/-- Month length as the spec words it: Gregorian leap rule (divisible by 4,
except centuries unless divisible by 400).  Stated independently of the
month-length table in `add_months` so the two can be compared. -/
def gregorianDim (y m : Nat) : Nat :=
  if m = 2 then (if y % 4 = 0 ∧ (y % 100 ≠ 0 ∨ y % 400 = 0) then 29 else 28)
  else if m = 4 ∨ m = 6 ∨ m = 9 ∨ m = 11 then 30 else 31

lemma daysInMonth_eq_gregorianDim (y m : Nat) (h1 : 1 ≤ m) (h2 : m ≤ 12) :
    daysInMonth y m = gregorianDim y m := by
  interval_cases m <;> simp [daysInMonth, gregorianDim]

lemma daysInMonth_pos (y m : Nat) (h1 : 1 ≤ m) (h2 : m ≤ 12) : 1 ≤ daysInMonth y m := by
  interval_cases m <;> (simp [daysInMonth]; try (split <;> omega))

lemma mkDT_valid {y m d hh mi : Nat} {dt : DateTime} (h : mkDT y m d hh mi = some dt) :
    dt = ⟨y, m, d, hh, mi⟩ ∧ validDT y m d hh mi := by
  unfold mkDT at h
  split at h
  · exact ⟨(Option.some.injEq _ _ ▸ h).symm, by assumption⟩
  · cases h

lemma strptime_dmy_hm_valid {s : List Char} {dt : DateTime}
    (h : strptime_dmy_hm s = some dt) :
    validDT dt.year dt.month dt.day dt.hour dt.minute := by
  unfold strptime_dmy_hm at h
  cases hs : scanDmyHm s with
  | none => rw [hs] at h; cases h
  | some t =>
    obtain ⟨y, m, d, hh, mi⟩ := t
    rw [hs] at h
    obtain ⟨rfl, hv⟩ := mkDT_valid h
    exact hv

lemma add_months_ok {dt : DateTime} (k : Nat)
    (hv : validDT dt.year dt.month dt.day dt.hour dt.minute)
    (hbound : dt.year + (dt.month - 1 + k) / 12 ≤ 9999) :
    add_months dt k = .ok
      { year := dt.year + (dt.month - 1 + k) / 12,
        month := (dt.month - 1 + k) % 12 + 1,
        day := min dt.day (daysInMonth (dt.year + (dt.month - 1 + k) / 12)
                 ((dt.month - 1 + k) % 12 + 1)),
        hour := dt.hour, minute := dt.minute } := by
  unfold add_months
  rw [if_pos]
  unfold validDT at hv ⊢
  have hmo : (dt.month - 1 + k) % 12 + 1 ≤ 12 := by
    have := Nat.mod_lt (dt.month - 1 + k) (by omega : 0 < 12)
    omega
  have hdim := daysInMonth_pos (dt.year + (dt.month - 1 + k) / 12)
    ((dt.month - 1 + k) % 12 + 1) (by omega) hmo
  refine ⟨by omega, hbound, by omega, hmo, by omega, Nat.min_le_right _ _, by omega, by omega⟩

lemma add_months_ok_inv {dt d2 : DateTime} {k : Nat} (h : add_months dt k = .ok d2) :
    d2.year = dt.year + (dt.month - 1 + k) / 12 ∧
    d2.month = (dt.month - 1 + k) % 12 + 1 ∧
    d2.day = min dt.day (daysInMonth d2.year d2.month) ∧
    d2.hour = dt.hour ∧ d2.minute = dt.minute ∧ d2.year ≤ 9999 := by
  simp only [add_months] at h
  split at h
  · cases h
    refine ⟨rfl, rfl, rfl, rfl, rfl, ?_⟩
    unfold validDT at *
    dsimp only
    omega
  · cases h

/-- The month-based recurrence policies of claim C1: the fixed month menus
and the custom (`personalizado`) policy with a digit-string month count. -/
def monthPolicy (prazo pers : List Char) (n : Nat) : Prop :=
  (prazo = "1 mês".data ∧ n = 1) ∨ (prazo = "2 meses".data ∧ n = 2) ∨
  (prazo = "3 meses".data ∧ n = 3) ∨ (prazo = "6 meses".data ∧ n = 6) ∨
  (prazo = "12 meses".data ∧ n = 12) ∨
  (prazo = "personalizado".data ∧ pyIsDigit pers = true ∧ digitsToNat pers = n)


/-- Claim C1 (amended, counterexample `calcular_proxima_year_overflow`): for
every base timestamp that parses under `"%d/%m/%Y %H:%M"` and every
month-based policy (1, 2, 3, 6, 12 months, or `personalizado` with a digit
month count N), `calcular_proxima` returns the date with year
`y + (m-1+N) / 12`, month `(m-1+N) % 12 + 1`, and the base day clamped to
the last valid day of the target month under the Gregorian leap rule —
PROVIDED the target year does not exceed 9999 (otherwise the code raises). -/
theorem calcular_proxima_month_semantics
    (data_s hora_s prazo pers : List Char) (dt : DateTime) (n : Nat)
    (hparse : strptime_dmy_hm (data_s ++ ' ' :: hora_s) = some dt)
    (hpol : monthPolicy prazo pers n)
    (hbound : dt.year + (dt.month - 1 + n) / 12 ≤ 9999) :
    calcular_proxima data_s hora_s prazo pers =
      .ok (strftime_dmy
        { year := dt.year + (dt.month - 1 + n) / 12,
          month := (dt.month - 1 + n) % 12 + 1,
          day := min dt.day (gregorianDim (dt.year + (dt.month - 1 + n) / 12)
                   ((dt.month - 1 + n) % 12 + 1)),
          hour := dt.hour, minute := dt.minute }) := by
  have hv := strptime_dmy_hm_valid hparse
  have hmo : (dt.month - 1 + n) % 12 + 1 ≤ 12 := by omega
  have heq := daysInMonth_eq_gregorianDim (dt.year + (dt.month - 1 + n) / 12)
    ((dt.month - 1 + n) % 12 + 1) (by omega) hmo
  have hok := add_months_ok n hv hbound
  unfold calcular_proxima
  rw [hparse]
  dsimp only
  rcases hpol with ⟨hp, hn⟩ | ⟨hp, hn⟩ | ⟨hp, hn⟩ | ⟨hp, hn⟩ | ⟨hp, hn⟩ | ⟨hp, hdig, hn⟩
  · subst hp hn
    rw [if_neg (show ¬("1 mês".data = "15 dias".data) from by decide),
      if_pos rfl,
      hok,
      heq]
    rfl
  · subst hp hn
    rw [if_neg (show ¬("2 meses".data = "15 dias".data) from by decide),
      if_neg (show ¬("2 meses".data = "1 mês".data) from by decide),
      if_pos rfl,
      hok,
      heq]
    rfl
  · subst hp hn
    rw [if_neg (show ¬("3 meses".data = "15 dias".data) from by decide),
      if_neg (show ¬("3 meses".data = "1 mês".data) from by decide),
      if_neg (show ¬("3 meses".data = "2 meses".data) from by decide),
      if_pos rfl,
      hok,
      heq]
    rfl
  · subst hp hn
    rw [if_neg (show ¬("6 meses".data = "15 dias".data) from by decide),
      if_neg (show ¬("6 meses".data = "1 mês".data) from by decide),
      if_neg (show ¬("6 meses".data = "2 meses".data) from by decide),
      if_neg (show ¬("6 meses".data = "3 meses".data) from by decide),
      if_pos rfl,
      hok,
      heq]
    rfl
  · subst hp hn
    rw [if_neg (show ¬("12 meses".data = "15 dias".data) from by decide),
      if_neg (show ¬("12 meses".data = "1 mês".data) from by decide),
      if_neg (show ¬("12 meses".data = "2 meses".data) from by decide),
      if_neg (show ¬("12 meses".data = "3 meses".data) from by decide),
      if_neg (show ¬("12 meses".data = "6 meses".data) from by decide),
      if_pos rfl,
      hok,
      heq]
    rfl
  · subst hp
    subst hn
    rw [if_neg (show ¬("personalizado".data = "15 dias".data) from by decide),
      if_neg (show ¬("personalizado".data = "1 mês".data) from by decide),
      if_neg (show ¬("personalizado".data = "2 meses".data) from by decide),
      if_neg (show ¬("personalizado".data = "3 meses".data) from by decide),
      if_neg (show ¬("personalizado".data = "6 meses".data) from by decide),
      if_neg (show ¬("personalizado".data = "12 meses".data) from by decide),
      if_pos ⟨rfl, hdig⟩,
      hok,
      heq]
    rfl

/-- Witness for C1: the two examples from the spec — 31/01 + 1 month clamps
to 29/02/2024 (leap year) and to 28/02/2023 (non-leap year). -/
theorem calcular_proxima_month_semantics_inst :
    calcular_proxima ("31/01/2024".data) ("10:00".data) ("1 mês".data) [] =
      .ok ("29/02/2024".data) ∧
    calcular_proxima ("31/01/2023".data) ("10:00".data) ("1 mês".data) [] =
      .ok ("28/02/2023".data) :=
  ⟨(calcular_proxima_month_semantics ("31/01/2024".data) ("10:00".data) ("1 mês".data) []
      ⟨2024, 1, 31, 10, 0⟩ 1 rfl (Or.inl ⟨rfl, rfl⟩) (by decide)).trans rfl,
   (calcular_proxima_month_semantics ("31/01/2023".data) ("10:00".data) ("1 mês".data) []
      ⟨2023, 1, 31, 10, 0⟩ 1 rfl (Or.inl ⟨rfl, rfl⟩) (by decide)).trans rfl⟩

/-- Counterexample to C1 as stated: `"31/12/9999 10:00"` parses, but adding
one month overflows `datetime.MAXYEAR`, so `dt.replace` raises `ValueError`
(modelled `.error ()`) instead of returning the claimed `31/01/10000`. -/
theorem calcular_proxima_year_overflow :
    strptime_dmy_hm ("31/12/9999 10:00".data) = some ⟨9999, 12, 31, 10, 0⟩ ∧
    calcular_proxima ("31/12/9999".data) ("10:00".data) ("1 mês".data) [] = .error () :=
  ⟨rfl, rfl⟩


lemma strftime_dmy_ne_nil (dt : DateTime) : strftime_dmy dt ≠ [] := by
  simp [strftime_dmy]

/-- Claim C6 (amended, counterexample `calcular_proxima_custom_zero`):
`calcular_proxima` fails soft to the empty string when the combined
timestamp does not parse, when the policy string is unrecognized, or when
the custom policy has a non-digit month count; but a custom policy yields a
non-empty result for EVERY digit-string month count (within year range),
zero included — positivity is not required. -/
theorem calcular_proxima_fail_soft (data_s hora_s prazo pers : List Char) :
    (strptime_dmy_hm (data_s ++ ' ' :: hora_s) = none →
      calcular_proxima data_s hora_s prazo pers = .ok []) ∧
    (prazo ≠ "15 dias".data → prazo ≠ "1 mês".data → prazo ≠ "2 meses".data →
      prazo ≠ "3 meses".data → prazo ≠ "6 meses".data → prazo ≠ "12 meses".data →
      prazo ≠ "personalizado".data →
      calcular_proxima data_s hora_s prazo pers = .ok []) ∧
    (prazo = "personalizado".data → pyIsDigit pers = false →
      calcular_proxima data_s hora_s prazo pers = .ok []) ∧
    (∀ dt, strptime_dmy_hm (data_s ++ ' ' :: hora_s) = some dt →
      prazo = "personalizado".data → pyIsDigit pers = true →
      dt.year + (dt.month - 1 + digitsToNat pers) / 12 ≤ 9999 →
      ∃ r, calcular_proxima data_s hora_s prazo pers = .ok r ∧ r ≠ []) := by
  refine ⟨fun h => ?_, fun h1 h2 h3 h4 h5 h6 h7 => ?_, fun h hdig => ?_,
    fun dt hp hpr hdig hb => ?_⟩
  · unfold calcular_proxima
    rw [h]
  · unfold calcular_proxima
    cases hp : strptime_dmy_hm (data_s ++ ' ' :: hora_s) with
    | none => rfl
    | some dt =>
      dsimp only
      rw [if_neg h1, if_neg h2, if_neg h3, if_neg h4, if_neg h5, if_neg h6,
        if_neg (fun hc => h7 hc.1)]
  · subst h
    unfold calcular_proxima
    cases hp : strptime_dmy_hm (data_s ++ ' ' :: hora_s) with
    | none => rfl
    | some dt =>
      dsimp only
      rw [if_neg (show ¬("personalizado".data = "15 dias".data) from by decide),
        if_neg (show ¬("personalizado".data = "1 mês".data) from by decide),
        if_neg (show ¬("personalizado".data = "2 meses".data) from by decide),
        if_neg (show ¬("personalizado".data = "3 meses".data) from by decide),
        if_neg (show ¬("personalizado".data = "6 meses".data) from by decide),
        if_neg (show ¬("personalizado".data = "12 meses".data) from by decide),
        if_neg (by simp [hdig])]
  · subst hpr
    have hok := add_months_ok (digitsToNat pers) (strptime_dmy_hm_valid hp) hb
    have hcal : calcular_proxima data_s hora_s ("personalizado".data) pers =
        Except.map strftime_dmy (add_months dt (digitsToNat pers)) := by
      unfold calcular_proxima
      rw [hp]
      dsimp only
      rw [if_neg (show ¬("personalizado".data = "15 dias".data) from by decide),
        if_neg (show ¬("personalizado".data = "1 mês".data) from by decide),
        if_neg (show ¬("personalizado".data = "2 meses".data) from by decide),
        if_neg (show ¬("personalizado".data = "3 meses".data) from by decide),
        if_neg (show ¬("personalizado".data = "6 meses".data) from by decide),
        if_neg (show ¬("personalizado".data = "12 meses".data) from by decide),
        if_pos ⟨rfl, hdig⟩]
    exact ⟨strftime_dmy _, by rw [hcal, hok]; rfl, strftime_dmy_ne_nil _⟩

/-- Witness for C6: an unrecognized policy string yields the empty string. -/
theorem calcular_proxima_fail_soft_inst :
    calcular_proxima ("31/01/2024".data) ("10:00".data) ("indefinido".data) [] = .ok [] :=
  (calcular_proxima_fail_soft _ _ _ _).2.1 (by decide) (by decide) (by decide) (by decide)
    (by decide) (by decide) (by decide)

/-- Counterexample to C6 as stated: the custom month count `"0"` passes
`isdigit` and produces a NON-empty result although it is not positive. -/
theorem calcular_proxima_custom_zero :
    calcular_proxima ("01/01/2024".data) ("09:00".data) ("personalizado".data) ("0".data) =
      .ok ("01/01/2024".data) ∧ ("01/01/2024".data : List Char) ≠ [] :=
  ⟨rfl, by decide⟩

/-- Strict calendar-date order (year, month, day, lexicographically). -/
def dateLt (a b : DateTime) : Prop :=
  a.year < b.year ∨ (a.year = b.year ∧ (a.month < b.month ∨ (a.month = b.month ∧
    a.day < b.day)))

/-- Non-strict calendar-date order. -/
def dateLe (a b : DateTime) : Prop :=
  a.year < b.year ∨ (a.year = b.year ∧ (a.month < b.month ∨ (a.month = b.month ∧
    a.day ≤ b.day)))

/-- Strict order on full timestamps (Python `datetime` comparison). -/
def tsLt (a b : DateTime) : Prop :=
  a.year < b.year ∨ (a.year = b.year ∧ (a.month < b.month ∨ (a.month = b.month ∧
    (a.day < b.day ∨ (a.day = b.day ∧ (a.hour < b.hour ∨ (a.hour = b.hour ∧
      a.minute < b.minute)))))))

instance (a b : DateTime) : Decidable (dateLt a b) := by
  unfold dateLt; infer_instance

instance (a b : DateTime) : Decidable (dateLe a b) := by
  unfold dateLe; infer_instance

instance (a b : DateTime) : Decidable (tsLt a b) := by
  unfold tsLt; infer_instance

lemma dateLe_of_dateLt {a b : DateTime} (h : dateLt a b) : dateLe a b := by
  unfold dateLt dateLe at *
  omega

lemma dateLt_trans {a b c : DateTime} (h1 : dateLt a b) (h2 : dateLt b c) : dateLt a c := by
  unfold dateLt at *
  omega

lemma tsLt_of_dateLt {a b : DateTime} (h : dateLt a b) (c d : Nat) :
    tsLt a ⟨b.year, b.month, b.day, c, d⟩ := by
  unfold dateLt tsLt at *
  dsimp only
  omega

lemma dateLt_nextDay (dt : DateTime) : dateLt dt (nextDay dt) := by
  unfold dateLt nextDay
  split_ifs <;> dsimp only <;> omega

lemma dateLt_addDaysIter (dt : DateTime) (n : Nat) : dateLt dt (addDaysIter dt (n + 1)) := by
  induction n with
  | zero => exact dateLt_nextDay dt
  | succ k ih => exact dateLt_trans ih (dateLt_nextDay _)

lemma add_months_dateLt {dt d2 : DateTime} {k : Nat} (hk : 1 ≤ k)
    (h : add_months dt k = .ok d2) : dateLt dt d2 := by
  obtain ⟨hy, hm, _⟩ := add_months_ok_inv h
  unfold dateLt
  omega

lemma add_months_dateLe {dt d2 : DateTime} {k : Nat}
    (hv : validDT dt.year dt.month dt.day dt.hour dt.minute)
    (h : add_months dt k = .ok d2) : dateLe dt d2 := by
  rcases Nat.eq_zero_or_pos k with rfl | hk
  · obtain ⟨hy, hm, hd, _⟩ := add_months_ok_inv h
    unfold validDT at hv
    have hy2 : d2.year = dt.year := by omega
    have hm2 : d2.month = dt.month := by omega
    rw [hy2, hm2] at hd
    unfold dateLe
    omega
  · exact dateLe_of_dateLt (add_months_dateLt hk h)

lemma month_case_after {s res : List Char} {dt : DateTime} {k : Nat} (P : Prop)
    (hp : strptime_dmy_hm s = some dt) (hk : 1 ≤ k)
    (hok2 : Except.map strftime_dmy (add_months dt k) = .ok res) :
    ∃ dtb d2, strptime_dmy_hm s = some dtb ∧ res = strftime_dmy d2 ∧ dateLe dtb d2 ∧
      (P → tsLt dtb ⟨d2.year, d2.month, d2.day, 0, 0⟩) := by
  cases ha : add_months dt k with
  | error e => rw [ha] at hok2; simp [Except.map] at hok2
  | ok d2 =>
    rw [ha] at hok2
    simp only [Except.map, Except.ok.injEq] at hok2
    have hlt := add_months_dateLt hk ha
    exact ⟨dt, d2, hp, hok2.symm, dateLe_of_dateLt hlt, fun _ => tsLt_of_dateLt hlt 0 0⟩

/-- Claim C7 (amended, counterexample `calcular_proxima_custom_zero_not_after`):
whenever `calcular_proxima` returns a non-empty string, it is the formatted
date of a day on-or-after the base calendar date, and it is STRICTLY after
the base timestamp except when the policy is `personalizado` with month
count 0, in which case it equals the base calendar date. -/
theorem calcular_proxima_after_base
    (data_s hora_s prazo pers res : List Char)
    (hok : calcular_proxima data_s hora_s prazo pers = .ok res) (hne : res ≠ []) :
    ∃ dt d2, strptime_dmy_hm (data_s ++ ' ' :: hora_s) = some dt ∧
      res = strftime_dmy d2 ∧ dateLe dt d2 ∧
      (¬(prazo = "personalizado".data ∧ digitsToNat pers = 0) →
        tsLt dt ⟨d2.year, d2.month, d2.day, 0, 0⟩) := by
  unfold calcular_proxima at hok
  cases hp : strptime_dmy_hm (data_s ++ ' ' :: hora_s) with
  | none =>
    rw [hp] at hok
    dsimp only at hok
    cases hok
    exact absurd rfl hne
  | some dt =>
    rw [hp] at hok
    dsimp only at hok
    rw [← hp]
    have hv := strptime_dmy_hm_valid hp
    by_cases h1 : prazo = "15 dias".data
    · rw [if_pos h1] at hok
      cases ha : addTimedeltaDays dt 15 with
      | error e => rw [ha] at hok; simp [Except.map] at hok
      | ok d2 =>
        rw [ha] at hok
        simp only [Except.map, Except.ok.injEq] at hok
        have hd2 : d2 = addDaysIter dt 15 := by
          simp only [addTimedeltaDays] at ha
          split at ha
          · exact (Except.ok.injEq _ _ ▸ ha).symm
          · cases ha
        have hlt : dateLt dt d2 := hd2 ▸ dateLt_addDaysIter dt 14
        exact ⟨dt, d2, hp, hok.symm, dateLe_of_dateLt hlt, fun _ => tsLt_of_dateLt hlt 0 0⟩
    · rw [if_neg h1] at hok
      by_cases h2 : prazo = "1 mês".data
      · rw [if_pos h2] at hok
        exact month_case_after _ hp (by omega) hok
      · rw [if_neg h2] at hok
        by_cases h3 : prazo = "2 meses".data
        · rw [if_pos h3] at hok
          exact month_case_after _ hp (by omega) hok
        · rw [if_neg h3] at hok
          by_cases h4 : prazo = "3 meses".data
          · rw [if_pos h4] at hok
            exact month_case_after _ hp (by omega) hok
          · rw [if_neg h4] at hok
            by_cases h5 : prazo = "6 meses".data
            · rw [if_pos h5] at hok
              exact month_case_after _ hp (by omega) hok
            · rw [if_neg h5] at hok
              by_cases h6 : prazo = "12 meses".data
              · rw [if_pos h6] at hok
                exact month_case_after _ hp (by omega) hok
              · rw [if_neg h6] at hok
                by_cases h7 : prazo = "personalizado".data ∧ pyIsDigit pers = true
                · rw [if_pos h7] at hok
                  cases ha : add_months dt (digitsToNat pers) with
                  | error e => rw [ha] at hok; simp [Except.map] at hok
                  | ok d2 =>
                    rw [ha] at hok
                    simp only [Except.map, Except.ok.injEq] at hok
                    refine ⟨dt, d2, hp, hok.symm, add_months_dateLe hv ha, fun hnz => ?_⟩
                    have hk : 1 ≤ digitsToNat pers := by
                      rcases Nat.eq_zero_or_pos (digitsToNat pers) with hz | hpos
                      · exact absurd ⟨h7.1, hz⟩ hnz
                      · exact hpos
                    exact tsLt_of_dateLt (add_months_dateLt hk ha) 0 0
                · rw [if_neg h7] at hok
                  cases hok
                  exact absurd rfl hne

/-- Witness for C7: the 15-day policy from the spec example `15/03/2024` →
`30/03/2024` yields a date strictly after the base timestamp. -/
theorem calcular_proxima_after_base_inst :
    ∃ dt d2, strptime_dmy_hm ("15/03/2024".data ++ ' ' :: "09:00".data) = some dt ∧
      ("30/03/2024".data : List Char) = strftime_dmy d2 ∧ dateLe dt d2 ∧
      (¬(("15 dias".data : List Char) = "personalizado".data ∧ digitsToNat [] = 0) →
        tsLt dt ⟨d2.year, d2.month, d2.day, 0, 0⟩) :=
  calcular_proxima_after_base ("15/03/2024".data) ("09:00".data) ("15 dias".data) []
    ("30/03/2024".data) rfl (by decide)

/-- Counterexample to C7 as stated: with custom month count `"0"` the result
is non-empty but equals the base calendar date `31/01/2024`, which is NOT
strictly after the base timestamp `31/01/2024 10:00`. -/
theorem calcular_proxima_custom_zero_not_after :
    calcular_proxima ("31/01/2024".data) ("10:00".data) ("personalizado".data) ("0".data) =
      .ok (strftime_dmy ⟨2024, 1, 31, 10, 0⟩) ∧
    strptime_dmy_hm ("31/01/2024".data ++ ' ' :: "10:00".data) = some ⟨2024, 1, 31, 10, 0⟩ ∧
    ¬ tsLt ⟨2024, 1, 31, 10, 0⟩ ⟨2024, 1, 31, 0, 0⟩ :=
  ⟨rfl, rfl, by decide⟩


/-- Witness for C5 (amended): both surviving formats canonicalize
31 January 2024 to the same `dd/mm/yyyy` string. -/
theorem fmt_date_canonicalizes_inst :
    fmt_date ("2024-01-31".data) = .ok ("31/01/2024".data) ∧
    fmt_date ("31/01/2024".data) = .ok ("31/01/2024".data) :=
  fmt_date_canonicalizes '3' '1' '0' '1' '2' '0' '2' '4' (by decide) (by decide)
    (by decide) (by decide) (by decide) (by decide) (by decide) (by decide)

/-- Witness for C8: with a valid range, only the record inside the range
survives; the unparseable date is dropped; order is preserved. -/
theorem apply_period_filter_spec_inst :
    apply_period_filter
      [⟨[], [], [], "15/03/2024".data, [], [], [], []⟩,
       ⟨[], [], [], "15/08/2024".data, [], [], [], []⟩,
       ⟨[], [], [], "xx".data, [], [], [], []⟩]
      ("2024-01-01".data) ("2024-06-30".data) =
      [⟨[], [], [], "15/03/2024".data, [], [], [], []⟩] :=
  ((apply_period_filter_spec
      [⟨[], [], [], "15/03/2024".data, [], [], [], []⟩,
       ⟨[], [], [], "15/08/2024".data, [], [], [], []⟩,
       ⟨[], [], [], "xx".data, [], [], [], []⟩]
      ("2024-01-01".data) ("2024-06-30".data)).2
    ⟨2024, 1, 1, 0, 0⟩ ⟨2024, 6, 30, 0, 0⟩ rfl rfl).trans (by decide)

/-- Witness for C9 (amended): `"0930"` and `"930"` both normalize to
`09:30`; the 2-digit string `"45"` passes through unchanged. -/
theorem fmt_time_digit_rules_inst :
    fmt_time ("0930".data) = "09:30".data ∧ fmt_time ("930".data) = "09:30".data ∧
    fmt_time ("45".data) = "45".data :=
  ⟨(fmt_time_digit_rules '0' '9' '3' '0' (by decide) (by decide) (by decide) (by decide)).1,
   (fmt_time_digit_rules '9' '3' '0' '0' (by decide) (by decide) (by decide) (by decide)).2.1,
   (fmt_time_digit_rules '4' '5' '0' '0' (by decide) (by decide) (by decide) (by decide)).2.2.1⟩

end Agenda
